import Mathlib

/-!
Verification of the session-lifecycle logic of the hono-oauth-sessions
repository, via a shallow embedding of `src/sessions.ts` (the class
`HonoOAuthSessions`): configuration validation, `validateSession` with its
transparent token refresh, `refreshMobileToken`, `logout`, and
`getOAuthSession`. Machine timestamps are millisecond epochs embedded as `Nat`;
optional TypeScript fields are `Option`; thrown errors are `Except`; the
injected storage adapter is a pure key-value map.
-/

namespace HonoOAuth

/-- JS truthiness of an optional string field: `undefined` and `""` are falsy. -/
def jsTruthy : Option String → Bool
  | none => false
  | some s => s != ""

/-- JS `s.startsWith(p)`, computed on the character lists of the two strings. -/
def jsStartsWith (s p : String) : Bool := List.isPrefixOf p.data s.data

/-- JS `a || b` on two optional strings: `undefined` and `""` fall through. -/
def jsOrStr (a : Option String) (b : Option String) : Option String :=
  match a with
  | some s => if s = "" then b else some s
  | none => b

/-- Error classes from `src/errors.ts`; each carries its human-readable message. -/
inductive HonoOAuthError where
  | configurationError (message : String)
  | sessionError (message : String)
  | oauthFlowError (message : String)
  | mobileIntegrationError (message : String)
  | storageError (message : String)
deriving Repr, DecidableEq

/-- `StoredOAuthSession` from `src/types.ts`: the record the manager keeps in the
key-value store under the key `session:` followed by the did. -/
structure StoredOAuthSession where
  did : String
  accessToken : String
  refreshToken : Option String
  handle : Option String
  displayName : Option String
  avatar : Option String
  pdsUrl : Option String
  expiresAt : Option Nat
  createdAt : Nat
  updatedAt : Nat
deriving Repr, DecidableEq

/-- `HonoOAuthConfig` from `src/types.ts`. The constructor observes the two
injected adapter objects only through their presence, so they are embedded as
flags; the remaining fields are carried as written. -/
structure HonoOAuthConfig where
  hasOAuthClient : Bool
  hasStorage : Bool
  cookieSecret : String
  baseUrl : String
  cookieName : Option String
  sessionTtl : Option Nat
  mobileScheme : Option String
deriving Repr, DecidableEq

/-- The `Required<HonoOAuthConfig>` the constructor stores after defaulting. -/
structure ResolvedConfig where
  cookieSecret : String
  baseUrl : String
  cookieName : String
  sessionTtl : Nat
  mobileScheme : String
deriving Repr, DecidableEq

/-- The `HonoOAuthSessions` constructor (`src/sessions.ts`): four truthiness
checks on the required fields, each raising `ConfigurationError`, then defaults
`cookieName = "sid"`, `sessionTtl = 60 * 60 * 24 * 7`, and the mobile scheme.
It performs no length check on `cookieSecret`. -/
def sessionsConstructor (config : HonoOAuthConfig) :
    Except HonoOAuthError ResolvedConfig :=
  if !config.hasOAuthClient then
    .error (.configurationError "oauthClient is required")
  else if !config.hasStorage then
    .error (.configurationError "storage is required")
  else if config.cookieSecret = "" then
    .error (.configurationError "cookieSecret is required")
  else if config.baseUrl = "" then
    .error (.configurationError "baseUrl is required")
  else
    .ok { cookieSecret := config.cookieSecret
          baseUrl := config.baseUrl
          cookieName := config.cookieName.getD "sid"
          sessionTtl := config.sessionTtl.getD 604800
          mobileScheme := config.mobileScheme.getD "app://auth-callback" }

/-- Typed failures the OAuth client adapter's `restore` may throw
(CHANGELOG v1.0.0; spec section 4.8). -/
inductive RestoreError where
  | sessionNotFoundError
  | refreshTokenExpiredError
  | refreshTokenRevokedError
  | networkError
  | tokenExchangeError
deriving Repr, DecidableEq

/-- The adapter session object, as far as the manager observes it when merely
passing it through. -/
structure SessionObj where
  did : String
deriving Repr, DecidableEq

/-- `getOAuthSession` (`src/sessions.ts`): delegates to the adapter's
`restore(did)` inside a try/catch whose catch arm logs the error and returns
null. A throwing `restore` is an `.error` argument value. -/
def getOAuthSession (restore : String → Except RestoreError (Option SessionObj))
    (did : String) : Option SessionObj :=
  match restore did with
  | .ok s => s
  | .error _ => none

/-- The object produced by the `toJSON` closure of the session-like value
`validateSession` fabricates for the refresh call (`src/sessions.ts`): the two
DPoP JWK slots hold JSON objects, embedded as association lists, and the code
always writes the empty object into both. -/
structure SessionJson where
  did : String
  accessToken : String
  refreshToken : Option String
  handle : Option String
  dpopPrivateKeyJWK : List (String × String)
  dpopPublicKeyJWK : List (String × String)
  pdsUrl : String
  tokenExpiresAt : Nat
deriving Repr, DecidableEq

/-- The session-like object `validateSession` hands to the adapter's `refresh`
capability (`sessionForRefresh` in `src/sessions.ts`). -/
structure SessionForRefresh where
  did : String
  accessToken : String
  refreshToken : Option String
  handle : Option String
  timeUntilExpiry : Nat
  toJSON : SessionJson
deriving Repr, DecidableEq

/-- Builds `sessionForRefresh` exactly as `validateSession` does. `Nat`
subtraction truncates at zero just like the `Math.max(0, ...)` guard; the
`tokenExpiresAt` slot follows the JS `expiresAt || now + 60 * 60 * 1000`
truthiness fallback, so a zero expiry also falls through to the default. -/
def mkSessionForRefresh (oauthData : StoredOAuthSession) (now : Nat) :
    SessionForRefresh :=
  { did := oauthData.did
    accessToken := oauthData.accessToken
    refreshToken := oauthData.refreshToken
    handle := oauthData.handle
    timeUntilExpiry := oauthData.expiresAt.elim 0 (fun e => e - now)
    toJSON :=
      { did := oauthData.did
        accessToken := oauthData.accessToken
        refreshToken := oauthData.refreshToken
        handle := oauthData.handle
        dpopPrivateKeyJWK := []
        dpopPublicKeyJWK := []
        pdsUrl := oauthData.pdsUrl.getD ""
        tokenExpiresAt :=
          match oauthData.expiresAt with
          | some e => if e = 0 then now + 3600000 else e
          | none => now + 3600000 } }

/-- The near-expiry test of `validateSession` (`src/sessions.ts`):
`oauthData.expiresAt && (Date.now() + 5 * 60 * 1000 >= oauthData.expiresAt)`.
JS truthiness makes both a missing and a zero `expiresAt` count as not
expired. -/
def isExpired (expiresAt : Option Nat) (now : Nat) : Bool :=
  match expiresAt with
  | none => false
  | some e => if e = 0 then false else decide (now + 5 * 60 * 1000 ≥ e)

/-- The guard on the transparent-refresh branch of `validateSession`:
`isExpired && oauthData.refreshToken && this.config.oauthClient.refresh`. -/
def attemptsRefresh (hasRefresh : Bool) (oauthData : StoredOAuthSession)
    (now : Nat) : Bool :=
  isExpired oauthData.expiresAt now && jsTruthy oauthData.refreshToken && hasRefresh

/-- What `validateSession` reads off the session object a successful adapter
`refresh` returns. -/
structure RefreshedSession where
  accessToken : String
  refreshToken : Option String
  timeUntilExpiry : Option Nat
deriving Repr, DecidableEq

/-- The OAuth client adapter capabilities `validateSession` interacts with:
the duck-typed check for an optional `refresh` method, and the method itself,
whose throwing calls are `.error` results. -/
structure RefreshAdapter where
  hasRefresh : Bool
  refresh : SessionForRefresh → Except String RefreshedSession

/-- The JS `refreshedSession.timeUntilExpiry ? Date.now() + timeUntilExpiry :
undefined` expiry the refresh branch stores: a missing or zero
`timeUntilExpiry` stores `expiresAt` as undefined. -/
def refreshedExpiresAt (timeUntilExpiry : Option Nat) (now : Nat) : Option Nat :=
  match timeUntilExpiry with
  | some t => if t = 0 then none else some (now + t)
  | none => none

/-- The pluggable key-value store of the storage adapter contract
(`src/types.ts`), embedded as a total map to optional records. -/
def Store := String → Option StoredOAuthSession

/-- `storage.set(key, value)`. -/
def storeSet (s : Store) (key : String) (v : StoredOAuthSession) : Store :=
  fun k => if k = key then some v else s k

/-- `storage.delete(key)`. -/
def storeDelete (s : Store) (key : String) : Store :=
  fun k => if k = key then none else s k

/-- The state `validateSession` and `logout` read and write: the did inside the
iron-session cookie (none once the session is destroyed or anonymous) and the
key-value store. The `createdAt` and `lastAccessed` cookie timestamps influence
nothing settled here and are not tracked. -/
structure SessionState where
  cookieDid : Option String
  store : Store

/-- `ValidationResult` from `src/types.ts`, restricted to the fields
`validateSession` actually sets. -/
structure ValidationResult where
  valid : Bool
  did : Option String
  handle : Option String
  displayName : Option String
deriving Repr, DecidableEq

/-- The `{ valid: false }` result. -/
def invalidResult : ValidationResult :=
  { valid := false, did := none, handle := none, displayName := none }

/-- `validateSession` (`src/sessions.ts`): unseal the cookie (a falsy did is
`{valid: false}`), self-heal an orphaned cookie by destroying it, run the
transparent refresh whose failures are caught and swallowed, and report
identity from the stored record. The storage adapter is pure here, so the
outer `SessionError` wrapper arm is unreachable and the function is total. -/
def validateSession (adapter : RefreshAdapter) (st : SessionState) (now : Nat) :
    ValidationResult × SessionState :=
  if !(jsTruthy st.cookieDid) then
    (invalidResult, st)
  else
    let did := st.cookieDid.getD ""
    match st.store ("session:" ++ did) with
    | none =>
      (invalidResult, { st with cookieDid := none })
    | some oauthData =>
      let st' :=
        if attemptsRefresh adapter.hasRefresh oauthData now then
          match adapter.refresh (mkSessionForRefresh oauthData now) with
          | .ok refreshed =>
            let updated : StoredOAuthSession :=
              { oauthData with
                accessToken := refreshed.accessToken
                refreshToken := jsOrStr refreshed.refreshToken oauthData.refreshToken
                expiresAt := refreshedExpiresAt refreshed.timeUntilExpiry now
                updatedAt := now }
            { st with store := storeSet st.store ("session:" ++ did) updated }
          | .error _ => st
        else st
      ({ valid := true, did := some did, handle := oauthData.handle,
         displayName := oauthData.displayName }, st')

/-- `logout` (`src/sessions.ts`): delete the stored record when the cookie has a
truthy did, then destroy the iron session. With a pure storage adapter the
`SessionError` wrapper arm is unreachable and the function is total. -/
def logout (st : SessionState) : SessionState :=
  if jsTruthy st.cookieDid then
    { cookieDid := none,
      store := storeDelete st.store ("session:" ++ st.cookieDid.getD "") }
  else
    { st with cookieDid := none }

/-- Environment `refreshMobileToken` runs against: the unsealing primitive (an
`.error` is a throwing `unsealData`, an `.ok` carries the `did` field of the
unsealed object, `none` when that field is missing), the store, the duck-typed
optional `restore` capability of the adapter, and the sealing primitive. -/
structure MobileEnv where
  unsealData : String → Except String (Option String)
  store : Store
  hasRestore : Bool
  restore : String → Except String (Option SessionObj)
  sealData : String → String

/-- `RefreshResult` from `src/types.ts`: the uniform result envelope returned to
mobile callers, with the payload flattened into its two fields. -/
structure RefreshResult where
  success : Bool
  payloadDid : Option String
  payloadSid : Option String
  error : Option String
deriving Repr, DecidableEq

/-- `refreshMobileToken` (`src/sessions.ts`). The `MobileIntegrationError`
throws on a malformed header or falsy unsealed did, and a throwing `unsealData`,
are all caught by the outer catch, which prepends the message with
`Token refresh failed: `; a throwing or null-yielding `restore` is caught by
the inner catch and falls through to the fallback, which re-seals the did and
still reports success. -/
def refreshMobileToken (env : MobileEnv) (authHeader : String) : RefreshResult :=
  if !(jsStartsWith authHeader "Bearer ") then
    { success := false, payloadDid := none, payloadSid := none,
      error := some "Token refresh failed: Invalid authorization header" }
  else
    let sealedToken := authHeader.drop 7
    match env.unsealData sealedToken with
    | .error e =>
      { success := false, payloadDid := none, payloadSid := none,
        error := some ("Token refresh failed: " ++ e) }
    | .ok didField =>
      if !(jsTruthy didField) then
        { success := false, payloadDid := none, payloadSid := none,
          error := some "Token refresh failed: Invalid session token" }
      else
        let did := didField.getD ""
        match env.store ("session:" ++ did) with
        | none =>
          { success := false, payloadDid := none, payloadSid := none,
            error := some "OAuth session not found" }
        | some _ =>
          let fallback : RefreshResult :=
            { success := true, payloadDid := some did,
              payloadSid := some (env.sealData did), error := none }
          if env.hasRestore then
            match env.restore did with
            | .ok (some _) =>
              { success := true, payloadDid := some did,
                payloadSid := some (env.sealData did), error := none }
            | .ok none => fallback
            | .error _ => fallback
          else fallback

/-- Modelled from the spec: the redirectPath acceptance rule of `startOAuth`
(spec section 4.2; the v0.5.0 custom-redirect support in the CHANGELOG). The
`startOAuth` implementations under src predate v0.5.0 and take no
`redirectPath`, so the rule is taken from the spec's words: accepted only if it
starts with `/` and does not start with `//`. -/
def acceptedRedirectPath (p : String) : Bool :=
  jsStartsWith p "/" && !(jsStartsWith p "//")

/-- Modelled from the spec: the redirectPath slot `startOAuth` places in the
OAuth state (spec section 4.2) - the given path when accepted, absent when the
path is dropped with a warning or was not given. -/
def stateRedirectPath (redirectPath : Option String) : Option String :=
  match redirectPath with
  | some p => if acceptedRedirectPath p then some p else none
  | none => none

/-- Modelled from the spec: the web-branch redirect target of `handleCallback`
(spec section 4.3) - `state.redirectPath` when one was accepted earlier, else
the fallback `/`. -/
def webCallbackRedirect (s : Option String) : String := s.getD "/"

/-- Concrete config with the 5-character secret used by the repository's own
constructor test. -/
def shortSecretConfig : HonoOAuthConfig :=
  { hasOAuthClient := true, hasStorage := true, cookieSecret := "short",
    baseUrl := "https://test.com", cookieName := none, sessionTtl := none,
    mobileScheme := none }

/-- A concrete `restore` that throws `RefreshTokenExpiredError` on every did. -/
def expiredRestore : String → Except RestoreError (Option SessionObj) :=
  fun _ => .error .refreshTokenExpiredError

/-- A concrete stored record for did:plc:alice, holding a refresh token and an
expiry at the millisecond epoch 1000000. -/
def aliceRecord : StoredOAuthSession :=
  { did := "did:plc:alice", accessToken := "at1", refreshToken := some "rt1",
    handle := some "alice.bsky.social", displayName := none, avatar := none,
    pdsUrl := none, expiresAt := some 1000000, createdAt := 0, updatedAt := 0 }

/-- The alice record with a zero expiry timestamp. -/
def zeroExpiryRecord : StoredOAuthSession :=
  { aliceRecord with expiresAt := some 0 }

/-- The alice record expiring 4 minutes 59 seconds after epoch 0. -/
def boundaryRecord : StoredOAuthSession :=
  { aliceRecord with expiresAt := some 299000 }

/-- The empty store. -/
def emptyStore : Store := fun _ => none

/-- An adapter without the optional refresh capability. -/
def noRefreshAdapter : RefreshAdapter :=
  { hasRefresh := false, refresh := fun _ => .error "no refresh" }

/-- An adapter whose refresh capability always throws. -/
def throwingAdapter : RefreshAdapter :=
  { hasRefresh := true, refresh := fun _ => .error "boom" }

/-- A state whose cookie names did:plc:alice and whose store holds only the
alice record. -/
def aliceState : SessionState :=
  { cookieDid := some "did:plc:alice",
    store := storeSet emptyStore ("session:" ++ "did:plc:alice") aliceRecord }

/-- A state whose cookie names did:plc:alice but whose store is empty. -/
def orphanState : SessionState :=
  { cookieDid := some "did:plc:alice", store := emptyStore }

/-- A concrete mobile environment: unsealing recognizes only the token `tok`
and yields did:plc:alice, the store holds the alice record, and `restore`
always throws. -/
def aliceMobileEnv : MobileEnv :=
  { unsealData := fun s =>
      if s = "tok" then .ok (some "did:plc:alice") else .error "unseal failed"
    store := storeSet emptyStore ("session:" ++ "did:plc:alice") aliceRecord
    hasRestore := true
    restore := fun _ => .error "restore failed"
    sealData := fun d => "sealed-" ++ d }

/-- An adapter whose refresh succeeds with a session reporting a zero
`timeUntilExpiry`. -/
def zeroExpiryAdapter : RefreshAdapter :=
  { hasRefresh := true
    refresh := fun _ =>
      .ok { accessToken := "at2", refreshToken := some "rt2",
            timeUntilExpiry := some 0 } }

/-- Claim C1 (code evidence): the constructor under src accepts the 5-character
secret "short" of the repository's own constructor test and resolves the
defaults `cookieName = "sid"` and `sessionTtl = 604800`, although that test and
the spec require a synchronous `ConfigurationError` whose message contains
"32 characters" for any secret shorter than 32 characters. -/
theorem c1_constructor_accepts_short_secret :
    sessionsConstructor shortSecretConfig =
      .ok { cookieSecret := "short", baseUrl := "https://test.com",
            cookieName := "sid", sessionTtl := 604800,
            mobileScheme := "app://auth-callback" } := rfl

/-- Claim C2 (code evidence): `getOAuthSession` under src catches the typed
`RefreshTokenExpiredError` thrown by the adapter's `restore` and converts it
into a null result instead of propagating it, here at the concrete did
`did:plc:alice`. -/
theorem c2_getOAuthSession_swallows_typed_error :
    getOAuthSession expiredRestore "did:plc:alice" = none := rfl

/-- Claim C3 (code evidence): at a concrete near-expiry record for which the
refresh guard of `validateSession` fires, the value the code hands to the
adapter's refresh capability is the fabricated full session object built by
`mkSessionForRefresh`, whose `toJSON` advertises empty DPoP key material and a
defaulted `pdsUrl`, not a minimal record of refresh-relevant fields. -/
theorem c3_refresh_gets_fabricated_session :
    attemptsRefresh true aliceRecord 900000 = true ∧
    (mkSessionForRefresh aliceRecord 900000).toJSON.dpopPrivateKeyJWK = [] ∧
    (mkSessionForRefresh aliceRecord 900000).toJSON.dpopPublicKeyJWK = [] ∧
    (mkSessionForRefresh aliceRecord 900000).toJSON.pdsUrl = "" := by
  refine ⟨by decide, rfl, rfl, rfl⟩

/-- Claim C4: a redirectPath survives into the OAuth state exactly when it
starts with `/` and does not start with `//`; a rejected path is dropped, and
the web callback redirects to the accepted path, falling back to `/` when none
was accepted or none was given. -/
theorem c4_redirect_path (p : String) :
    (stateRedirectPath (some p) = some p ↔
      (jsStartsWith p "/" = true ∧ jsStartsWith p "//" = false)) ∧
    (acceptedRedirectPath p = false → stateRedirectPath (some p) = none) ∧
    webCallbackRedirect (stateRedirectPath (some p)) =
      (if acceptedRedirectPath p then p else "/") ∧
    webCallbackRedirect (stateRedirectPath none) = "/" := by
  unfold stateRedirectPath webCallbackRedirect acceptedRedirectPath
  by_cases h1 : jsStartsWith p "/" = true <;>
    by_cases h2 : jsStartsWith p "//" = true <;>
      simp_all

/-- Witness for C4 at the concrete rejected path `//evil.example` and the
accepted path `/dashboard`. -/
theorem c4_redirect_path_witness :
    (acceptedRedirectPath "//evil.example" = false ∧
      stateRedirectPath (some "//evil.example") = none) ∧
    (stateRedirectPath (some "/dashboard") = some "/dashboard" ∧
      webCallbackRedirect (stateRedirectPath (some "/dashboard")) = "/dashboard") :=
  ⟨⟨by decide, (c4_redirect_path "//evil.example").2.1 (by decide)⟩,
   ⟨(c4_redirect_path "/dashboard").1.mpr ⟨by decide, by decide⟩,
    by have h := (c4_redirect_path "/dashboard").2.2.1
       simpa [acceptedRedirectPath] using h⟩⟩

/-- Claim C5: when the cookie carries a truthy did with no stored record,
`validateSession` destroys the cookie session and returns the invalid, non-error
result, and a subsequent validation of the resulting state is also invalid and
touches nothing. -/
theorem c5_orphan_cookie_self_heals (adapter : RefreshAdapter) (st : SessionState)
    (did : String) (now now2 : Nat)
    (hdid : st.cookieDid = some did) (hne : did ≠ "")
    (habs : st.store ("session:" ++ did) = none) :
    validateSession adapter st now = (invalidResult, { st with cookieDid := none }) ∧
    validateSession adapter { st with cookieDid := none } now2 =
      (invalidResult, { st with cookieDid := none }) := by
  constructor
  · unfold validateSession
    simp [hdid, jsTruthy, hne, habs]
  · unfold validateSession
    simp [jsTruthy]

/-- Witness for C5 on the concrete orphan state for did:plc:alice. -/
theorem c5_orphan_cookie_self_heals_witness :
    (orphanState.cookieDid = some "did:plc:alice" ∧
     orphanState.store ("session:" ++ "did:plc:alice") = none) ∧
    validateSession noRefreshAdapter orphanState 5 =
      (invalidResult, { orphanState with cookieDid := none }) :=
  ⟨⟨rfl, rfl⟩,
   (c5_orphan_cookie_self_heals noRefreshAdapter orphanState "did:plc:alice" 5 6 rfl
      (by decide) rfl).1⟩

/-- Claim C6 counterexample: a stored record whose `expiresAt` is present with
value 0 satisfies `now + 5 minutes >= expiresAt`, carries a refresh token, and
faces a refresh-capable adapter, yet the JS truthiness guard treats the zero
expiry as absent and attempts no refresh. -/
theorem c6_zero_expiry_counterexample :
    zeroExpiryRecord.expiresAt = some 0 ∧
    (1000 : Nat) + 5 * 60 * 1000 ≥ 0 ∧
    jsTruthy zeroExpiryRecord.refreshToken = true ∧
    attemptsRefresh true zeroExpiryRecord 1000 = false := by decide

/-- Claim C6 (amended): with a refresh-capable adapter and a truthy refresh
token, `validateSession` attempts a refresh exactly when `expiresAt` is
present, nonzero, and `now + 5 minutes >= expiresAt`; in particular
`expiresAt = now + 4 min 59 s` triggers an attempt and
`expiresAt = now + 5 min 1 s` does not. -/
theorem c6_refresh_boundary (hasRefresh : Bool) (data : StoredOAuthSession)
    (now : Nat) (hcap : hasRefresh = true)
    (htok : jsTruthy data.refreshToken = true) :
    attemptsRefresh hasRefresh data now = true ↔
      ∃ e, data.expiresAt = some e ∧ e ≠ 0 ∧ now + 5 * 60 * 1000 ≥ e := by
  unfold attemptsRefresh isExpired
  subst hcap
  rw [htok]
  cases h : data.expiresAt with
  | none => simp
  | some e => by_cases he : e = 0 <;> simp [he]

/-- Witness for C6 at the boundary record expiring 4 min 59 s after `now = 0`. -/
theorem c6_refresh_boundary_witness :
    (jsTruthy boundaryRecord.refreshToken = true) ∧
    (attemptsRefresh true boundaryRecord 0 = true ↔
      ∃ e, boundaryRecord.expiresAt = some e ∧ e ≠ 0 ∧ 0 + 5 * 60 * 1000 ≥ e) :=
  ⟨by decide, c6_refresh_boundary true boundaryRecord 0 rfl (by decide)⟩

/-- Claim C7: when the adapter's refresh throws on the value `validateSession`
passes it, the failure is swallowed: the call still returns valid with the did
and the pre-refresh stored handle and displayName, and the state - cookie and
store - is left unchanged. -/
theorem c7_refresh_failure_swallowed (adapter : RefreshAdapter) (st : SessionState)
    (did : String) (data : StoredOAuthSession) (now : Nat) (msg : String)
    (hdid : st.cookieDid = some did) (hne : did ≠ "")
    (hrec : st.store ("session:" ++ did) = some data)
    (hthrow : adapter.refresh (mkSessionForRefresh data now) = .error msg) :
    validateSession adapter st now =
      ({ valid := true, did := some did, handle := data.handle,
         displayName := data.displayName }, st) := by
  unfold validateSession
  simp only [hdid, jsTruthy, hrec, Option.getD_some]
  by_cases hg : attemptsRefresh adapter.hasRefresh data now <;>
    simp [hg, hthrow, hne]

/-- Witness for C7 on the alice state with an always-throwing refresh adapter
at a near-expiry instant. -/
theorem c7_refresh_failure_swallowed_witness :
    (aliceState.cookieDid = some "did:plc:alice" ∧
     aliceState.store ("session:" ++ "did:plc:alice") = some aliceRecord ∧
     throwingAdapter.refresh (mkSessionForRefresh aliceRecord 900000) =
       .error "boom") ∧
    validateSession throwingAdapter aliceState 900000 =
      ({ valid := true, did := some "did:plc:alice", handle := aliceRecord.handle,
         displayName := aliceRecord.displayName }, aliceState) :=
  ⟨⟨rfl, rfl, rfl⟩,
   c7_refresh_failure_swallowed throwingAdapter aliceState "did:plc:alice"
     aliceRecord 900000 "boom" rfl (by decide) rfl rfl⟩

/-- Claim C8: `refreshMobileToken` always answers with a result envelope: a
non-Bearer header and a throwing unseal yield failure envelopes carrying the
`Token refresh failed: ` message, an absent stored record yields the
`OAuth session not found` envelope, and with a stored record present a throwing
or null-yielding `restore` still yields success with a newly sealed token for
the same did. -/
theorem c8_mobile_refresh_envelope (env : MobileEnv) (authHeader : String)
    (did : String) (data : StoredOAuthSession) :
    (jsStartsWith authHeader "Bearer " = false →
      refreshMobileToken env authHeader =
        { success := false, payloadDid := none, payloadSid := none,
          error := some "Token refresh failed: Invalid authorization header" }) ∧
    (∀ e, jsStartsWith authHeader "Bearer " = true →
      env.unsealData (authHeader.drop 7) = .error e →
      refreshMobileToken env authHeader =
        { success := false, payloadDid := none, payloadSid := none,
          error := some ("Token refresh failed: " ++ e) }) ∧
    (jsStartsWith authHeader "Bearer " = true →
      env.unsealData (authHeader.drop 7) = .ok (some did) → did ≠ "" →
      env.store ("session:" ++ did) = none →
      refreshMobileToken env authHeader =
        { success := false, payloadDid := none, payloadSid := none,
          error := some "OAuth session not found" }) ∧
    (jsStartsWith authHeader "Bearer " = true →
      env.unsealData (authHeader.drop 7) = .ok (some did) → did ≠ "" →
      env.store ("session:" ++ did) = some data → env.hasRestore = true →
      ((∃ msg, env.restore did = .error msg) ∨ env.restore did = .ok none) →
      refreshMobileToken env authHeader =
        { success := true, payloadDid := some did,
          payloadSid := some (env.sealData did), error := none }) := by
  refine ⟨?_, ?_, ?_, ?_⟩
  · intro h
    unfold refreshMobileToken
    simp [h]
  · intro e h hu
    unfold refreshMobileToken
    simp [h, hu]
  · intro h hu hne habs
    unfold refreshMobileToken
    simp [h, hu, jsTruthy, hne, habs]
  · intro h hu hne hrec hr hrest
    unfold refreshMobileToken
    simp only [h, hu, jsTruthy, hrec, hr, Bool.not_false, Bool.not_true,
      Option.getD_some, if_true, if_false]
    rcases hrest with ⟨msg, hm⟩ | hm <;> simp [hm, hne]

/-- Witness for C8 on the concrete mobile environment with a throwing restore
and the header `Bearer tok`. -/
theorem c8_mobile_refresh_envelope_witness :
    (jsStartsWith "Bearer tok" "Bearer " = true ∧
     aliceMobileEnv.unsealData ("Bearer tok".drop 7) = .ok (some "did:plc:alice") ∧
     aliceMobileEnv.store ("session:" ++ "did:plc:alice") = some aliceRecord ∧
     aliceMobileEnv.restore "did:plc:alice" = .error "restore failed" ∧
     aliceMobileEnv.sealData "did:plc:alice" = "sealed-did:plc:alice") ∧
    refreshMobileToken aliceMobileEnv "Bearer tok" =
      { success := true, payloadDid := some "did:plc:alice",
        payloadSid := some (aliceMobileEnv.sealData "did:plc:alice"),
        error := none } :=
  ⟨⟨by decide, rfl, rfl, rfl, rfl⟩,
   (c8_mobile_refresh_envelope aliceMobileEnv "Bearer tok" "did:plc:alice"
      aliceRecord).2.2.2 (by decide) rfl (by decide) rfl rfl
      (Or.inl ⟨"restore failed", rfl⟩)⟩

/-- Claim C9: `logout` is idempotent: nothing throws in the pure-adapter
embedding, logging out a session-less state only clears the cookie, a second
logout is always a no-op, and after a logout of a cookie naming a truthy did no
stored record for that did remains. -/
theorem c9_logout_idempotent (st : SessionState) (did : String)
    (hdid : st.cookieDid = some did) (hne : did ≠ "") :
    (∀ st2 : SessionState, logout (logout st2) = logout st2) ∧
    (logout st).store ("session:" ++ did) = none ∧
    (logout (logout st)).store ("session:" ++ did) = none ∧
    (∀ st3 : SessionState, st3.cookieDid = none →
      logout st3 = { st3 with cookieDid := none }) := by
  have hnone : ∀ s : SessionState, (logout s).cookieDid = none := by
    intro s
    unfold logout
    split <;> rfl
  have hid : ∀ s : SessionState, logout (logout s) = logout s := by
    intro s
    have h := hnone s
    rcases hls : logout s with ⟨c, stor⟩
    rw [hls] at h
    have h2 : c = none := h
    subst h2
    unfold logout
    simp [jsTruthy]
  have hdel : (logout st).store ("session:" ++ did) = none := by
    unfold logout
    simp [hdid, jsTruthy, hne, storeDelete]
  refine ⟨hid, hdel, ?_, ?_⟩
  · rw [hid st]
    exact hdel
  · intro st3 h3
    unfold logout
    simp [h3, jsTruthy]

/-- Witness for C9 on the alice state. -/
theorem c9_logout_idempotent_witness :
    (aliceState.cookieDid = some "did:plc:alice" ∧ "did:plc:alice" ≠ "") ∧
    (logout aliceState).store ("session:" ++ "did:plc:alice") = none ∧
    logout (logout aliceState) = logout aliceState :=
  ⟨⟨rfl, by decide⟩,
   (c9_logout_idempotent aliceState "did:plc:alice" rfl (by decide)).2.1,
   (c9_logout_idempotent aliceState "did:plc:alice" rfl (by decide)).1 aliceState⟩

/-- Claim C10: when the transparent refresh succeeds but the refreshed session
reports an absent or zero `timeUntilExpiry`, `validateSession` overwrites the
stored record with `expiresAt` undefined; the refresh guard is then false for
that record at every later time under every adapter, so no later validation of
that did attempts a refresh or changes the state again. -/
theorem c10_zero_expiry_disables_refresh (adapter : RefreshAdapter)
    (st : SessionState) (did : String) (data : StoredOAuthSession) (now : Nat)
    (refreshed : RefreshedSession)
    (hdid : st.cookieDid = some did) (hne : did ≠ "")
    (hrec : st.store ("session:" ++ did) = some data)
    (hguard : attemptsRefresh adapter.hasRefresh data now = true)
    (hok : adapter.refresh (mkSessionForRefresh data now) = .ok refreshed)
    (hzero : refreshed.timeUntilExpiry = none ∨
      refreshed.timeUntilExpiry = some 0) :
    ∃ updated : StoredOAuthSession,
      (validateSession adapter st now).2.store ("session:" ++ did) =
        some updated ∧
      updated.expiresAt = none ∧
      (∀ (hr : Bool) (now2 : Nat), attemptsRefresh hr updated now2 = false) ∧
      (∀ (adapter2 : RefreshAdapter) (st2 : SessionState) (now2 : Nat),
        st2.cookieDid = some did → st2.store ("session:" ++ did) = some updated →
        (validateSession adapter2 st2 now2).2 = st2) := by
  have hexp : refreshedExpiresAt refreshed.timeUntilExpiry now = none := by
    rcases hzero with h | h <;> simp [refreshedExpiresAt, h]
  refine ⟨{ data with
            accessToken := refreshed.accessToken
            refreshToken := jsOrStr refreshed.refreshToken data.refreshToken
            expiresAt := refreshedExpiresAt refreshed.timeUntilExpiry now
            updatedAt := now }, ?_, hexp, ?_, ?_⟩
  · unfold validateSession
    simp [hdid, jsTruthy, hne, hrec, hguard, hok, storeSet]
  · intro hr now2
    simp [attemptsRefresh, isExpired, hexp]
  · intro adapter2 st2 now2 h2did h2rec
    have hg2 : attemptsRefresh adapter2.hasRefresh
        { data with
          accessToken := refreshed.accessToken
          refreshToken := jsOrStr refreshed.refreshToken data.refreshToken
          expiresAt := refreshedExpiresAt refreshed.timeUntilExpiry now
          updatedAt := now } now2 = false := by
      simp [attemptsRefresh, isExpired, hexp]
    unfold validateSession
    simp [h2did, jsTruthy, hne, h2rec, hg2]

/-- Witness for C10 on the alice state with an adapter refreshing to a zero
`timeUntilExpiry`. -/
theorem c10_zero_expiry_disables_refresh_witness :
    (aliceState.cookieDid = some "did:plc:alice" ∧
     aliceState.store ("session:" ++ "did:plc:alice") = some aliceRecord ∧
     attemptsRefresh zeroExpiryAdapter.hasRefresh aliceRecord 900000 = true ∧
     zeroExpiryAdapter.refresh (mkSessionForRefresh aliceRecord 900000) =
       .ok { accessToken := "at2", refreshToken := some "rt2",
             timeUntilExpiry := some 0 }) ∧
    (∃ updated : StoredOAuthSession,
      (validateSession zeroExpiryAdapter aliceState 900000).2.store
          ("session:" ++ "did:plc:alice") = some updated ∧
      updated.expiresAt = none ∧
      (∀ (hr : Bool) (now2 : Nat), attemptsRefresh hr updated now2 = false) ∧
      (∀ (adapter2 : RefreshAdapter) (st2 : SessionState) (now2 : Nat),
        st2.cookieDid = some "did:plc:alice" →
        st2.store ("session:" ++ "did:plc:alice") = some updated →
        (validateSession adapter2 st2 now2).2 = st2)) :=
  ⟨⟨rfl, rfl, by decide, rfl⟩,
   c10_zero_expiry_disables_refresh zeroExpiryAdapter aliceState "did:plc:alice"
     aliceRecord 900000
     { accessToken := "at2", refreshToken := some "rt2",
       timeUntilExpiry := some 0 }
     rfl (by decide) rfl (by decide) rfl (Or.inr rfl)⟩

end HonoOAuth
